import Mathlib

/-!
Verification of the translation dispatch-and-cache core of the
Mini-Project-Translator repository (src/core/translator.py,
src/core/caching.py, src/core/offline_translator.py).

Shallow embedding conventions:
* Python dict results become the `TransResult` structure; keys that are
  absent on some code paths (`offline`, `pivot`, `error`) become `Option`
  fields with `none` meaning "key absent".
* External collaborators (the Marian model inference, the Google and
  MyMemory web APIs, langdetect's `detect`, Python's builtin randomized
  string `hash`, and the wall clock) are inputs of the embedding, packaged
  in an environment record.  A `none` from a backend oracle models
  "the library call raised and the adapter swallowed the exception".
* Wall-clock elapsed time is a rational supplied by the environment; the
  dispatcher copies it into the `time` field exactly as the code copies
  `time.time() - start_time`.
* Machine integers are `Nat` with explicit `% 2 ^ 32` / `% 2 ^ 64` where
  the source (MD5) wraps.
-/

/-- Python truthiness of an optional string: `None` and `""` are falsy.
Embeds the `if result:` checks of the dispatcher. -/
def truthy : Option String → Bool
  | none => false
  | some s => !s.isEmpty

/-- Python `str.strip()` on the ASCII whitespace fragment of Python's
Unicode whitespace class (the claims only involve ASCII whitespace):
drop whitespace from both ends.  List-structural so the kernel can
reduce it. -/
def pyStrip (s : String) : String :=
  String.mk ((s.data.dropWhile Char.isWhitespace).reverse.dropWhile Char.isWhitespace).reverse

/-- Reversed decimal digits of `n`, fuel-driven so the kernel can reduce it
(fuel `n` is always enough since a number has at most `n` digits). -/
def natDigitsRevAux (fuel n : Nat) : List Char :=
  match fuel, n with
  | 0, _ => []
  | _, 0 => []
  | fuel + 1, n => Char.ofNat (48 + n % 10) :: natDigitsRevAux fuel (n / 10)

/-- Python `str` of a natural number (decimal). -/
def natStr (n : Nat) : String :=
  if n = 0 then "0" else String.mk (natDigitsRevAux n n).reverse

/-- Python `str` of an integer: minus sign followed by decimal digits. -/
def intStr : Int → String
  | Int.ofNat n => natStr n
  | Int.negSucc n => "-" ++ natStr (n + 1)

/-- Two lowercase hex characters of one byte, as `hexdigest()` renders
them (`Nat.digitChar` yields 0-9 then lowercase a-f). -/
def byteToHex (b : Nat) : List Char :=
  [Nat.digitChar (b / 16 % 16), Nat.digitChar (b % 16)]

/-- Truncation to a 32-bit machine word. -/
def m32 (x : Nat) : Nat := x % 2 ^ 32

/-- 32-bit left rotation (x < 2^32, 0 < n < 32). -/
def rotl32 (x n : Nat) : Nat := (x * 2 ^ n + x / 2 ^ (32 - n)) % 2 ^ 32

/-- Bitwise complement inside a 32-bit word. -/
def not32 (x : Nat) : Nat := 4294967295 - x

/-- The four MD5 round functions, selected by operation index. -/
def md5F (i b c d : Nat) : Nat :=
  if i < 16 then (b.land c).lor ((not32 b).land d)
  else if i < 32 then (b.land d).lor (c.land (not32 d))
  else if i < 48 then (b.xor c).xor d
  else c.xor (b.lor (not32 d))

/-- The MD5 message-word index schedule. -/
def md5G (i : Nat) : Nat :=
  if i < 16 then i
  else if i < 32 then (5 * i + 1) % 16
  else if i < 48 then (3 * i + 5) % 16
  else (7 * i) % 16

/-- The 64 MD5 sine-derived additive constants. -/
def md5K : List Nat :=
  [0xd76aa478, 0xe8c7b756, 0x242070db, 0xc1bdceee,
   0xf57c0faf, 0x4787c62a, 0xa8304613, 0xfd469501,
   0x698098d8, 0x8b44f7af, 0xffff5bb1, 0x895cd7be,
   0x6b901122, 0xfd987193, 0xa679438e, 0x49b40821,
   0xf61e2562, 0xc040b340, 0x265e5a51, 0xe9b6c7aa,
   0xd62f105d, 0x02441453, 0xd8a1e681, 0xe7d3fbc8,
   0x21e1cde6, 0xc33707d6, 0xf4d50d87, 0x455a14ed,
   0xa9e3e905, 0xfcefa3f8, 0x676f02d9, 0x8d2a4c8a,
   0xfffa3942, 0x8771f681, 0x6d9d6122, 0xfde5380c,
   0xa4beea44, 0x4bdecfa9, 0xf6bb4b60, 0xbebfbc70,
   0x289b7ec6, 0xeaa127fa, 0xd4ef3085, 0x04881d05,
   0xd9d4d039, 0xe6db99e5, 0x1fa27cf8, 0xc4ac5665,
   0xf4292244, 0x432aff97, 0xab9423a7, 0xfc93a039,
   0x655b59c3, 0x8f0ccc92, 0xffeff47d, 0x85845dd1,
   0x6fa87e4f, 0xfe2ce6e0, 0xa3014314, 0x4e0811a1,
   0xf7537e82, 0xbd3af235, 0x2ad7d2bb, 0xeb86d391]

/-- The 64 MD5 per-operation rotation amounts. -/
def md5S : List Nat :=
  [7, 12, 17, 22, 7, 12, 17, 22, 7, 12, 17, 22, 7, 12, 17, 22,
   5, 9, 14, 20, 5, 9, 14, 20, 5, 9, 14, 20, 5, 9, 14, 20,
   4, 11, 16, 23, 4, 11, 16, 23, 4, 11, 16, 23, 4, 11, 16, 23,
   6, 10, 15, 21, 6, 10, 15, 21, 6, 10, 15, 21, 6, 10, 15, 21]

/-- Group a byte list into 32-bit little-endian words. -/
def leWords : List Nat → List Nat
  | b0 :: b1 :: b2 :: b3 :: rest =>
      (b0 + 256 * b1 + 65536 * b2 + 16777216 * b3) :: leWords rest
  | _ => []

/-- Consecutive fixed-size slices of a list: the embedding of the Python
idiom `[xs[i:i+n] for i in range(0, len(xs), n)]` used both by the
chunking translators and by MD5's 64-byte block split.  Fuel-driven
(`fuel = xs.length` always suffices) so the kernel can reduce it. -/
def chunksAux {α : Type} (n : Nat) : Nat → List α → List (List α)
  | _, [] => []
  | 0, l => [l]
  | fuel + 1, l => if l.length ≤ n then [l] else l.take n :: chunksAux n fuel (l.drop n)

/-- One MD5 operation on state (a, b, c, d). -/
def md5Op (w : List Nat) (i : Nat) (st : Nat × Nat × Nat × Nat) : Nat × Nat × Nat × Nat :=
  match st with
  | (a, b, c, d) =>
      let f := m32 (md5F i b c d + a + md5K.getD i 0 + w.getD (md5G i) 0)
      (d, m32 (b + rotl32 f (md5S.getD i 0)), b, c)

/-- One 64-byte MD5 block: 64 operations then wrap-around addition. -/
def md5Block (st : Nat × Nat × Nat × Nat) (w : List Nat) : Nat × Nat × Nat × Nat :=
  match st, (List.range 64).foldl (fun s i => md5Op w i s) st with
  | (a0, b0, c0, d0), (a, b, c, d) => (m32 (a0 + a), m32 (b0 + b), m32 (c0 + c), m32 (d0 + d))

/-- MD5 padding: 0x80, zeros to 56 mod 64, 64-bit little-endian bit length. -/
def md5Pad (msg : List Nat) : List Nat :=
  let len := msg.length
  let padZeros := (119 - len % 64) % 64
  let bitLen := 8 * len % 2 ^ 64
  msg ++ [128] ++ List.replicate padZeros 0 ++ (List.range 8).map (fun i => bitLen / 2 ^ (8 * i) % 256)

/-- UTF-8 bytes of a string, as Python's `str.encode()`. -/
def utf8Bytes (s : String) : List Nat := s.toUTF8.toList.map (fun b => b.toNat)

/-- MD5 compression over all padded blocks from the standard initial state. -/
def md5FinalState (bytes : List Nat) : Nat × Nat × Nat × Nat :=
  (chunksAux 64 bytes.length bytes).foldl
    (fun st blk => md5Block st (leWords blk))
    (0x67452301, 0xefcdab89, 0x98badcfe, 0x10325476)

/-- The 16 digest bytes (little-endian serialization of the final state). -/
def wordLEBytes (w : Nat) : List Nat := [w % 256, w / 256 % 256, w / 65536 % 256, w / 16777216 % 256]

/-- The 16-byte MD5 digest of a string's UTF-8 encoding. -/
def md5DigestBytes (s : String) : List Nat :=
  match md5FinalState (md5Pad (utf8Bytes s)) with
  | (a, b, c, d) => wordLEBytes a ++ wordLEBytes b ++ wordLEBytes c ++ wordLEBytes d

/-- `hashlib.md5(s.encode()).hexdigest()`: 32 lowercase hex characters. -/
def md5Hex (s : String) : String :=
  String.mk ((md5DigestBytes s).map byteToHex).flatten

/-- Python `sep.join(parts)`, structurally on the list. -/
def pyJoin (sep : String) : List String → String
  | [] => ""
  | [x] => x
  | x :: xs => x ++ sep ++ pyJoin sep xs

/-- `ModelCache._make_key` (caching.py:84-92): join the stringified parts
with ":", replace by the MD5 hex digest when the joined string is longer
than 200 characters, and prepend the prefix. -/
def make_key (pre : String) (parts : List String) : String :=
  let keyStr := pyJoin ":" parts
  if keyStr.length > 200 then pre ++ ":" ++ md5Hex keyStr
  else pre ++ ":" ++ keyStr

/-- The translation cache key for a given value `h` of Python's builtin
`hash(text)` (caching.py:117 and 136 pass `("trans", source_lang,
target_lang, hash(text))`; `_make_key` stringifies each part). -/
def transKeyOfHash (h : Int) (src tgt : String) : String :=
  make_key "trans" [src, tgt, intStr h]

/-- The `supported_languages` dictionary keys (translator.py:32-38). -/
def supported_languages : List String :=
  ["en", "es", "fr", "de", "it", "pt", "ru", "ja", "ko", "zh",
   "ar", "hi", "nl", "sv", "da", "no", "fi", "pl", "tr", "th"]

/-- `re.sub(r'[^\w\s]', ' ', text)` restricted to the ASCII fragment of
Python's Unicode `\w` class (letters, digits, underscore); no claim
depends on non-ASCII word characters. -/
def pySubNonWord (s : String) : String :=
  String.mk (s.data.map (fun c =>
    if c.isAlphanum || c = '_' || c.isWhitespace then c else ' '))

/-- Whitespace-run splitting of `str.split()`, fuel-driven
(fuel = list length suffices). -/
def pySplitAux (fuel : Nat) (l : List Char) : List (List Char) :=
  match fuel with
  | 0 => []
  | fuel + 1 =>
    match l.dropWhile Char.isWhitespace with
    | [] => []
    | l' => l'.takeWhile (fun c => !c.isWhitespace) ::
        pySplitAux fuel (l'.dropWhile (fun c => !c.isWhitespace))

/-- `' '.join(s.split())`: split on whitespace runs, rejoin with single
spaces. -/
def pyCollapseWs (s : String) : String :=
  pyJoin " " ((pySplitAux s.data.length s.data).map String.mk)

/-- Is the character's codepoint within [lo, hi]? -/
def charBetween (lo hi : Nat) (c : Char) : Bool :=
  decide (lo ≤ c.toNat ∧ c.toNat ≤ hi)

/-- Environment of external collaborators consumed by the dispatcher.
`gen name` is the loaded Marian model keyed by model name (`none` = load
failed); `google`/`mymemory` are the web adapters' outcomes, with their
retry loops and their 4500- and 450-char chunking folded into the single
oracle answer (`none` = every attempt raised and was swallowed);
`det` is langdetect's `detect` (`none` = `LangDetectException`);
`pyHash` is Python's builtin randomized string `hash`; `elapsed` is the
wall-clock difference `time.time() - start_time` observed at the return
point; `writeOk` is whether the cache write path succeeds (cache-layer
failures are swallowed by `cache_translation`, leaving the store
unchanged). -/
structure Env where
  gen : String → Option (String → String)
  google : String → String → String → Option String
  mymemory : String → String → String → Option String
  det : String → Option String
  pyHash : String → Int
  elapsed : ℚ
  writeOk : Bool

/-- `AITranslator.detect_language` (translator.py:56-86). -/
def detect_language (env : Env) (text : String) : String × ℚ :=
  if text = "" ∨ (pyStrip text).length < 3 then ("en", mkRat 3 10)
  else
    let cleanText := pyCollapseWs (pySubNonWord text)
    match env.det (if cleanText.length > 10 then cleanText else text) with
    | some detected =>
        let confidence : ℚ := if cleanText.length > 10 then mkRat 95 100 else mkRat 7 10
        if supported_languages.contains detected then (detected, confidence)
        else ("en", mkRat 1 2)
    | none =>
        if text.data.any (charBetween 0x4e00 0x9fff) then ("zh", mkRat 8 10)
        else if text.data.any (fun c => charBetween 0x3040 0x309f c ||
          charBetween 0x30a0 0x30ff c) then ("ja", mkRat 8 10)
        else if text.data.any (charBetween 0xac00 0xd7af) then ("ko", mkRat 8 10)
        else if text.data.any (charBetween 0x0600 0x06ff) then ("ar", mkRat 8 10)
        else if text.data.any (charBetween 0x0900 0x097f) then ("hi", mkRat 8 10)
        else ("en", mkRat 1 2)

/-- `f"Helsinki-NLP/opus-mt-{source_lang}-{target_lang}"` (translator.py:93). -/
def model_name (src tgt : String) : String :=
  "Helsinki-NLP/opus-mt-" ++ src ++ "-" ++ tgt

/-- `AITranslator.translate_with_ai` (translator.py:88-122): reject
whitespace-only text, load the model for the pair, translate directly up
to 400 characters, otherwise translate the consecutive 400-character
slices independently and join the outputs with single spaces.  Returns
the translated text; the constant method tag "AI Model (Marian)" is
attached by the callers that use it. -/
def translate_with_ai (env : Env) (text src tgt : String) : Option String :=
  if pyStrip text = "" then none
  else
    match env.gen (model_name src tgt) with
    | none => none
    | some gen =>
        if text.length > 400 then
          some (pyJoin " "
            ((chunksAux 400 text.data.length text.data).map (fun l => gen (String.mk l))))
        else some (gen text)

/-- `AITranslator.translate_with_google` (translator.py:124-160): re-runs
detection when handed "auto", then asks the web adapter; returns the
translation paired with the source language it reports back.  The retry
loop and large-text chunking live inside the `google` oracle. -/
def translate_with_google (env : Env) (text src tgt : String) : Option (String × String) :=
  let src' := if src = "auto" then (detect_language env text).1 else src
  match env.google text src' tgt with
  | some r => some (r, src')
  | none => none

/-- `AITranslator.translate_with_mymemory` (translator.py:162-184). -/
def translate_with_mymemory (env : Env) (text src tgt : String) : Option String :=
  env.mymemory text src tgt

/-- The translation result dictionary.  `offline`, `pivot` and `error`
are `none` when the corresponding dict key is absent. -/
structure TransResult where
  translation : String
  source_lang : String
  method : String
  time : ℚ
  confidence : ℚ
  cached : Bool
  offline : Option Bool
  pivot : Option Bool
  error : Option String
  deriving Repr, DecidableEq

/-- The translation store, all tiers folded into one key-value map (the
tiering affects latency, not lookup results). -/
abbrev Cache : Type := String → Option TransResult

/-- `ModelCache.get_cached_translation` (caching.py:134-161), keyed as
`_make_key("trans", source_lang, target_lang, hash(text))`. -/
def get_cached_translation (env : Env) (c : Cache) (text src tgt : String) :
    Option TransResult :=
  c (transKeyOfHash (env.pyHash text) src tgt)

/-- `ModelCache.cache_translation` (caching.py:106-132): store under the
same key; a failing write is swallowed and leaves the store unchanged. -/
def cache_translation (env : Env) (c : Cache) (text src tgt : String)
    (r : TransResult) : Cache :=
  if env.writeOk then
    fun k => if k = transKeyOfHash (env.pyHash text) src tgt then some r else c k
  else c

/-- The dispatchers' "auto" resolution (translator.py:191-193,
offline_translator.py:113-115): replace "auto" by the detected language.
-/
def resolved_source (env : Env) (text src : String) : String :=
  if src = "auto" then (detect_language env text).1 else src

/-- The fresh-result dictionary built in `smart_translate`'s AI branch
(translator.py:205-212). -/
def ai_result (env : Env) (aiRes : Option String) (src : String) : TransResult :=
  { translation := aiRes.getD "", source_lang := src,
    method := "AI Model (Marian)", time := env.elapsed,
    confidence := mkRat 95 100, cached := false,
    offline := none, pivot := none, error := none }

/-- The fresh-result dictionary built in `smart_translate`'s Google branch
(translator.py:220-227); its `source_lang` is the language the Google
adapter reports back. -/
def google_result (env : Env) (gRes : Option (String × String)) (src : String) : TransResult :=
  { translation := (gRes.map Prod.fst).getD "",
    source_lang := (gRes.map Prod.snd).getD src,
    method := "Google Translate", time := env.elapsed,
    confidence := mkRat 90 100, cached := false,
    offline := none, pivot := none, error := none }

/-- The fresh-result dictionary built in `smart_translate`'s MyMemory
branch (translator.py:235-242). -/
def mymemory_result (env : Env) (mRes : Option String) (src : String) : TransResult :=
  { translation := mRes.getD "", source_lang := src,
    method := "MyMemory", time := env.elapsed,
    confidence := mkRat 80 100, cached := false,
    offline := none, pivot := none, error := none }

/-- `AITranslator.smart_translate` (translator.py:186-247): resolve
"auto", probe the cache (on a hit return the stored result with `time`
recomputed and `cached = true`), then try AI model, Google, MyMemory in
order, each advanced past when its answer is `None` or empty; wrap the
first usable answer with its per-backend confidence constant and cache
it; return `none` when all three fail.  The three backend outcomes are
bound up front; as the oracles are pure this is observationally the
code's sequential attempt order. -/
def smart_translate (env : Env) (c : Cache) (text src tgt : String) :
    Option TransResult × Cache :=
  let src' := resolved_source env text src
  match get_cached_translation env c text src' tgt with
  | some r => (some { r with time := env.elapsed, cached := true }, c)
  | none =>
    let aiRes := translate_with_ai env text src' tgt
    let gRes := translate_with_google env text src' tgt
    let mRes := translate_with_mymemory env text src' tgt
    if truthy aiRes then
      let r := ai_result env aiRes src'
      (some r, cache_translation env c text src' tgt r)
    else if truthy (gRes.map Prod.fst) then
      let r := google_result env gRes src'
      (some r, cache_translation env c text src' tgt r)
    else if truthy mRes then
      let r := mymemory_result env mRes src'
      (some r, cache_translation env c text src' tgt r)
    else (none, c)

/-- `AITranslator.validate_input` (translator.py:249-262) for string
text: the three checks append their messages in order. -/
def validate_input (text src tgt : String) : List String :=
  (if text = "" ∨ pyStrip text = "" then ["Please enter some text to translate"] else []) ++
  (if text.length > 10000 then ["Text is too long (maximum 10,000 characters)"] else []) ++
  (if src = tgt ∧ src ≠ "auto" then ["Source and target languages cannot be the same"] else [])

/-- `AITranslator.validate_input` over a possibly-`None` text argument.
For `None` the truthiness check `not text` succeeds (appending the
emptiness message), but the unconditional `len(text) > 10000` check then
raises `TypeError`, so the function never returns its error list. -/
def validate_input_py (text : Option String) (src tgt : String) :
    Except String (List String) :=
  match text with
  | none => Except.error "TypeError: object of type NoneType has no len()"
  | some t => Except.ok (validate_input t src tgt)

/-- `OfflineTranslator.offline_pairs` (offline_translator.py:35-83): the
local-model pair table, pairs mapped to Marian model names (the names are
consumed only by `preload_models`, which no claim touches). -/
def offline_pairs : List ((String × String) × String) :=
  [(("en", "es"), "Helsinki-NLP/opus-mt-en-es"),
   (("en", "fr"), "Helsinki-NLP/opus-mt-en-fr"),
   (("en", "de"), "Helsinki-NLP/opus-mt-en-de"),
   (("en", "it"), "Helsinki-NLP/opus-mt-en-it"),
   (("en", "pt"), "Helsinki-NLP/opus-mt-en-pt"),
   (("en", "ru"), "Helsinki-NLP/opus-mt-en-ru"),
   (("en", "zh"), "Helsinki-NLP/opus-mt-en-zh"),
   (("en", "ja"), "Helsinki-NLP/opus-mt-en-jap"),
   (("en", "ko"), "Helsinki-NLP/opus-mt-en-ko"),
   (("en", "ar"), "Helsinki-NLP/opus-mt-en-ar"),
   (("en", "hi"), "Helsinki-NLP/opus-mt-en-hi"),
   (("en", "nl"), "Helsinki-NLP/opus-mt-en-nl"),
   (("en", "sv"), "Helsinki-NLP/opus-mt-en-sv"),
   (("en", "da"), "Helsinki-NLP/opus-mt-en-da"),
   (("en", "no"), "Helsinki-NLP/opus-mt-en-no"),
   (("en", "fi"), "Helsinki-NLP/opus-mt-en-fi"),
   (("en", "pl"), "Helsinki-NLP/opus-mt-en-pl"),
   (("en", "tr"), "Helsinki-NLP/opus-mt-en-tr"),
   (("es", "en"), "Helsinki-NLP/opus-mt-es-en"),
   (("fr", "en"), "Helsinki-NLP/opus-mt-fr-en"),
   (("de", "en"), "Helsinki-NLP/opus-mt-de-en"),
   (("it", "en"), "Helsinki-NLP/opus-mt-it-en"),
   (("pt", "en"), "Helsinki-NLP/opus-mt-pt-en"),
   (("ru", "en"), "Helsinki-NLP/opus-mt-ru-en"),
   (("zh", "en"), "Helsinki-NLP/opus-mt-zh-en"),
   (("ja", "en"), "Helsinki-NLP/opus-mt-jap-en"),
   (("ko", "en"), "Helsinki-NLP/opus-mt-ko-en"),
   (("ar", "en"), "Helsinki-NLP/opus-mt-ar-en"),
   (("hi", "en"), "Helsinki-NLP/opus-mt-hi-en"),
   (("nl", "en"), "Helsinki-NLP/opus-mt-nl-en"),
   (("sv", "en"), "Helsinki-NLP/opus-mt-sv-en"),
   (("da", "en"), "Helsinki-NLP/opus-mt-da-en"),
   (("no", "en"), "Helsinki-NLP/opus-mt-no-en"),
   (("fi", "en"), "Helsinki-NLP/opus-mt-fi-en"),
   (("pl", "en"), "Helsinki-NLP/opus-mt-pl-en"),
   (("tr", "en"), "Helsinki-NLP/opus-mt-tr-en"),
   (("es", "fr"), "Helsinki-NLP/opus-mt-es-fr"),
   (("fr", "es"), "Helsinki-NLP/opus-mt-fr-es"),
   (("es", "it"), "Helsinki-NLP/opus-mt-es-it"),
   (("it", "es"), "Helsinki-NLP/opus-mt-it-es"),
   (("fr", "de"), "Helsinki-NLP/opus-mt-fr-de"),
   (("de", "fr"), "Helsinki-NLP/opus-mt-de-fr")]

/-- `OfflineTranslator.is_offline_available` (offline_translator.py:85-96):
membership of the pair among the table keys. -/
def is_offline_available (src tgt : String) : Bool :=
  (offline_pairs.map Prod.fst).contains (src, tgt)

/-- The offline dispatcher's extra configuration
(offline_translator.py:16-32). -/
structure OffEnv extends Env where
  offline_mode : Bool
  use_ai_models : Bool
  use_google_translate : Bool
  use_mymemory : Bool

/-- The offline-fallback dictionary (offline_translator.py:150-159):
the original text echoed back with confidence 0.1 and an error message
(whose arrow is the mojibake byte sequence U+00E2 U+2020 U+2019 present
in the source). -/
def offline_fallback_result (env : OffEnv) (text src tgt : String) : TransResult :=
  { translation := text, source_lang := src,
    method := "Offline Fallback", time := env.elapsed,
    confidence := mkRat 1 10, cached := false,
    offline := some true, pivot := none,
    error := some ("No offline model available for " ++ src ++ " \u00e2\u2020\u2019 " ++ tgt) }

/-- The fresh-result dictionary of the offline dispatcher's direct local
model branch (offline_translator.py:128-136). -/
def off_ai_result (env : OffEnv) (aiRes : Option String) (src : String) : TransResult :=
  { translation := aiRes.getD "", source_lang := src,
    method := "AI Model (Marian) (Offline)", time := env.elapsed,
    confidence := mkRat 92 100, cached := false,
    offline := some true, pivot := none, error := none }

/-- The combined pivot-result dictionary
(offline_translator.py:226-235). -/
def pivot_result (env : OffEnv) (fRes : Option String) (src : String) : TransResult :=
  { translation := fRes.getD "", source_lang := src,
    method := "AI Model via English Pivot (Offline)", time := env.elapsed,
    confidence := mkRat 85 100, cached := false,
    offline := some true, pivot := some true, error := none }

/-- The fresh-result dictionary of the offline dispatcher's Google branch
(offline_translator.py:165-173). -/
def off_google_result (env : OffEnv) (gRes : Option (String × String)) (src : String) :
    TransResult :=
  { translation := (gRes.map Prod.fst).getD "",
    source_lang := (gRes.map Prod.snd).getD src,
    method := "Google Translate (Online)", time := env.elapsed,
    confidence := mkRat 90 100, cached := false,
    offline := some false, pivot := none, error := none }

/-- The fresh-result dictionary of the offline dispatcher's MyMemory
branch (offline_translator.py:180-188). -/
def off_mymemory_result (env : OffEnv) (mRes : Option String) (src : String) : TransResult :=
  { translation := mRes.getD "", source_lang := src,
    method := "MyMemory (Online)", time := env.elapsed,
    confidence := mkRat 80 100, cached := false,
    offline := some false, pivot := none, error := none }

/-- `OfflineTranslator._translate_via_english_pivot`
(offline_translator.py:195-239): translate source to English, then the
intermediate English to the target, both through the local model; each
step requires the pair in the table and a truthy output; on success the
combined result carries confidence 0.85 and the `pivot` flag and is
written to the cache under the original (text, source, target) key. -/
def translate_via_english_pivot (env : OffEnv) (c : Cache) (text src tgt : String) :
    Option TransResult × Cache :=
  if is_offline_available src "en" then
    let eRes := translate_with_ai env.toEnv text src "en"
    if truthy eRes then
      if is_offline_available "en" tgt then
        let fRes := translate_with_ai env.toEnv (eRes.getD "") "en" tgt
        if truthy fRes then
          let r := pivot_result env fRes src
          (some r, cache_translation env.toEnv c text src tgt r)
        else (none, c)
      else (none, c)
    else (none, c)
  else (none, c)

/-- `OfflineTranslator.smart_translate` (offline_translator.py:98-193):
resolve "auto", probe the cache, try the local model when enabled and the
pair is in the table (confidence 0.92, method tagged "(Offline)"); in
forced-offline mode try the English pivot for non-English pairs and
otherwise return the offline-fallback dictionary; when online, fall back
to Google then MyMemory (confidences 0.90 / 0.80, methods tagged
"(Online)"), each gated by its feature flag; `none` only when every
online avenue is also exhausted.  Backend outcomes are bound up front;
the oracles being pure, this matches the code's sequential attempts. -/
def offline_smart_translate (env : OffEnv) (c : Cache) (text src tgt : String) :
    Option TransResult × Cache :=
  let src' := resolved_source env.toEnv text src
  match get_cached_translation env.toEnv c text src' tgt with
  | some r => (some { r with time := env.elapsed, cached := true }, c)
  | none =>
    let aiRes := translate_with_ai env.toEnv text src' tgt
    if env.use_ai_models ∧ is_offline_available src' tgt ∧ truthy aiRes then
      let r := off_ai_result env aiRes src'
      (some r, cache_translation env.toEnv c text src' tgt r)
    else if env.offline_mode then
      if src' ≠ "en" ∧ tgt ≠ "en" then
        match translate_via_english_pivot env c text src' tgt with
        | (some r, c') => (some r, c')
        | (none, _) => (some (offline_fallback_result env text src' tgt), c)
      else (some (offline_fallback_result env text src' tgt), c)
    else
      let gRes := if env.use_google_translate then
        translate_with_google env.toEnv text src' tgt else none
      let mRes := if env.use_mymemory then
        translate_with_mymemory env.toEnv text src' tgt else none
      if truthy (gRes.map Prod.fst) then
        let r := off_google_result env gRes src'
        (some r, cache_translation env.toEnv c text src' tgt r)
      else if truthy mRes then
        let r := off_mymemory_result env mRes src'
        (some r, cache_translation env.toEnv c text src' tgt r)
      else (none, c)

/-- The empty translation store. -/
def emptyCache : Cache := fun _ => none

/-- Test environment: every collaborator fails or is trivial. -/
def envNone : Env :=
  { gen := fun _ => none, google := fun _ _ _ => none,
    mymemory := fun _ _ _ => none, det := fun _ => none,
    pyHash := fun _ => 0, elapsed := 0, writeOk := true }

/-- Test environment: only the Google adapter answers. -/
def envGoogle : Env := { envNone with google := fun _ _ _ => some "hola" }

/-- `envGoogle` at a later wall-clock reading. -/
def envGoogleLater : Env := { envGoogle with elapsed := 7 }

/-- Test environment: the local model answers "bonjour" for every pair. -/
def envAI : Env := { envNone with gen := fun _ => some (fun _ => "bonjour") }

/-- Test environment: only MyMemory answers. -/
def envMyMemory : Env := { envNone with mymemory := fun _ _ _ => some "ciao" }

/-- Test environment: the local model decodes to the empty string while
Google answers. -/
def envAIEmpty : Env := { envGoogle with gen := fun _ => some (fun _ => "") }

/-- Test environment: the local model answers "x" for every chunk. -/
def envChunk : Env := { envNone with gen := fun _ => some (fun _ => "x") }

/-- Offline test configuration over failing collaborators, offline forced,
every feature flag on. -/
def offEnvNone : OffEnv :=
  { toEnv := envNone, offline_mode := true, use_ai_models := true,
    use_google_translate := true, use_mymemory := true }

/-- Offline-forced configuration whose local model always answers. -/
def offEnvAI : OffEnv := { offEnvNone with toEnv := envAI }

/-- A model loader with models only for es-en and en-de, each appending
"X" to its input. -/
def pivotGen : String → Option (String → String) :=
  fun n =>
    if n = model_name "es" "en" ∨ n = model_name "en" "de" then
      some (fun t => t ++ "X")
    else none

/-- Offline-forced configuration with local models only for es-en and
en-de, so that es to de must pivot through English. -/
def offEnvPivot : OffEnv :=
  { offEnvNone with toEnv := { envNone with gen := pivotGen } }

/-- Online (not forced-offline) configuration where only Google answers. -/
def offEnvOnlineGoogle : OffEnv := { offEnvNone with offline_mode := false, toEnv := envGoogle }

/-- Online configuration where only MyMemory answers. -/
def offEnvOnlineMyMemory : OffEnv := { offEnvNone with offline_mode := false, toEnv := envMyMemory }

theorem isDigit_ofNat_digit (m : Nat) (h : m < 10) :
    (Char.ofNat (48 + m)).isDigit = true := by
  interval_cases m <;> decide

theorem mem_natDigitsRevAux_isDigit :
    ∀ (fuel n : Nat) (c : Char), c ∈ natDigitsRevAux fuel n → c.isDigit = true := by
  intro fuel
  induction fuel with
  | zero => intro n c h; simp [natDigitsRevAux] at h
  | succ fuel ih =>
    intro n c h
    match n with
    | 0 => simp [natDigitsRevAux] at h
    | Nat.succ k =>
      simp only [natDigitsRevAux] at h
      rcases List.mem_cons.mp h with h1 | h2
      · subst h1; exact isDigit_ofNat_digit _ (Nat.mod_lt _ (by decide))
      · exact ih _ _ h2

theorem natStr_mem_isDigit (n : Nat) (c : Char) (h : c ∈ (natStr n).data) :
    c.isDigit = true := by
  unfold natStr at h
  split at h
  · have : c = '0' := by simpa using h
    subst this; decide
  · have : c ∈ natDigitsRevAux n n := by simpa using h
    exact mem_natDigitsRevAux_isDigit _ _ _ this

theorem intStr_mem (i : Int) (c : Char) (h : c ∈ (intStr i).data) :
    c.isDigit = true ∨ c = '-' := by
  cases i with
  | ofNat n => exact Or.inl (natStr_mem_isDigit n c h)
  | negSucc n =>
    rw [intStr, String.data_append] at h
    rcases List.mem_append.mp h with h1 | h2
    · right; simpa using h1
    · exact Or.inl (natStr_mem_isDigit _ _ h2)

theorem flatten_map_byteToHex_length (l : List Nat) :
    ((l.map byteToHex).flatten).length = 2 * l.length := by
  induction l with
  | nil => simp
  | cons b l ih =>
    simp only [List.map_cons, List.flatten_cons, List.length_append, ih, byteToHex,
      List.length_cons, List.length_nil]
    omega

theorem md5DigestBytes_length (s : String) : (md5DigestBytes s).length = 16 := by
  unfold md5DigestBytes
  rcases md5FinalState (md5Pad (utf8Bytes s)) with ⟨a, b, c, d⟩
  simp [wordLEBytes]

theorem md5Hex_length (s : String) : (md5Hex s).length = 32 := by
  show ((md5DigestBytes s).map byteToHex).flatten.length = 32
  rw [flatten_map_byteToHex_length, md5DigestBytes_length]

theorem chunksAux_nil {α : Type} (n fuel : Nat) : chunksAux n fuel ([] : List α) = [] := by
  cases fuel <;> rfl

theorem chunksAux_ne_nil {α : Type} (n fuel : Nat) (l : List α) (h : l ≠ []) :
    chunksAux n fuel l ≠ [] := by
  match fuel, l with
  | _, [] => exact absurd rfl h
  | 0, x :: xs => simp [chunksAux]
  | fuel + 1, x :: xs =>
    rw [chunksAux]
    · split <;> simp
    · simp

theorem chunksAux_flatten {α : Type} :
    ∀ (fuel n : Nat) (l : List α), l.length ≤ fuel → 0 < n →
      (chunksAux n fuel l).flatten = l := by
  intro fuel
  induction fuel with
  | zero =>
    intro n l hl hn
    have : l = [] := List.eq_nil_of_length_eq_zero (Nat.le_zero.mp hl)
    subst this; simp [chunksAux_nil]
  | succ fuel ih =>
    intro n l hl hn
    match l with
    | [] => simp [chunksAux_nil]
    | x :: xs =>
      rw [chunksAux]
      · split
        · simp
        · rename_i hgt
          rw [List.flatten_cons, ih n ((x :: xs).drop n) ?_ hn, List.take_append_drop]
          have : (x :: xs).length ≤ fuel + 1 := hl
          simp only [List.length_drop, List.length_cons] at *
          omega
      · simp

theorem chunksAux_mem_length {α : Type} :
    ∀ (fuel n : Nat) (l c : List α), l.length ≤ fuel → 0 < n →
      c ∈ chunksAux n fuel l → 0 < c.length ∧ c.length ≤ n := by
  intro fuel
  induction fuel with
  | zero =>
    intro n l c hl hn hc
    have : l = [] := List.eq_nil_of_length_eq_zero (Nat.le_zero.mp hl)
    subst this; simp [chunksAux_nil] at hc
  | succ fuel ih =>
    intro n l c hl hn hc
    match l with
    | [] => simp [chunksAux_nil] at hc
    | x :: xs =>
      rw [chunksAux] at hc
      · split at hc
        · rename_i hle
          rcases (List.mem_singleton).mp hc with rfl
          exact ⟨by simp, hle⟩
        · rename_i hgt
          rcases List.mem_cons.mp hc with rfl | h2
          · constructor
            · simp only [List.length_take, List.length_cons] at *
              omega
            · simp only [List.length_take, List.length_cons] at *
              omega
          · refine ih n ((x :: xs).drop n) c ?_ hn h2
            have : (x :: xs).length ≤ fuel + 1 := hl
            simp only [List.length_drop, List.length_cons] at *
            omega
      · simp

theorem chunksAux_dropLast_length {α : Type} :
    ∀ (fuel n : Nat) (l c : List α), l.length ≤ fuel → 0 < n →
      c ∈ (chunksAux n fuel l).dropLast → c.length = n := by
  intro fuel
  induction fuel with
  | zero =>
    intro n l c hl hn hc
    have : l = [] := List.eq_nil_of_length_eq_zero (Nat.le_zero.mp hl)
    subst this; simp [chunksAux_nil] at hc
  | succ fuel ih =>
    intro n l c hl hn hc
    match l with
    | [] => simp [chunksAux_nil] at hc
    | x :: xs =>
      rw [chunksAux] at hc
      · split at hc
        · simp at hc
        · rename_i hgt
          have hdrop : ((x :: xs).drop n) ≠ [] := by
            have hgt2 : n < (x :: xs).length := Nat.lt_of_not_le hgt
            intro hd
            have := congrArg List.length hd
            simp only [List.length_drop, List.length_nil] at this
            omega
          rw [List.dropLast_cons_of_ne_nil (chunksAux_ne_nil n fuel _ hdrop)] at hc
          rcases List.mem_cons.mp hc with rfl | h2
          · simp only [List.length_take, List.length_cons] at *
            omega
          · refine ih n ((x :: xs).drop n) c ?_ hn h2
            have : (x :: xs).length ≤ fuel + 1 := hl
            simp only [List.length_drop, List.length_cons] at *
            omega
      · simp

theorem cache_translation_read_self (env : Env) (c : Cache) (text src tgt : String)
    (r : TransResult) (h : env.writeOk = true) :
    get_cached_translation env (cache_translation env c text src tgt r) text src tgt = some r := by
  simp [get_cached_translation, cache_translation, h]

theorem truthy_some_of_ne (s : String) (h : s ≠ "") : truthy (some s) = true := by
  have he : s.isEmpty = false := by
    cases hb : s.isEmpty with
    | false => rfl
    | true => exact absurd ((String.isEmpty_iff s).mp hb) h
  simp [truthy, he]

theorem get_cached_translation_write (env1 env2 : Env) (c : Cache)
    (text src tgt : String) (r : TransResult)
    (hhash : env2.pyHash = env1.pyHash) (hw : env1.writeOk = true) :
    get_cached_translation env2 (cache_translation env1 c text src tgt r) text src tgt =
      some r := by
  simp [get_cached_translation, cache_translation, hw, hhash]

theorem smart_translate_cache_hit (env : Env) (c : Cache) (text src tgt : String)
    (r0 : TransResult) (hsrc : src ≠ "auto")
    (hc : get_cached_translation env c text src tgt = some r0) :
    smart_translate env c text src tgt =
      (some { r0 with time := env.elapsed, cached := true }, c) := by
  unfold smart_translate
  simp [resolved_source, hsrc, hc]

/-- C7: `validate_input` with equal source and target languages (and the
source not "auto") returns a non-empty error list, and with source
"auto" it never emits the same-language error. -/
theorem validate_input_same_language :
    (∀ (text L : String), L ≠ "auto" → validate_input text L L ≠ []) ∧
    (∀ (text L : String),
      "Source and target languages cannot be the same" ∉ validate_input text "auto" L) := by
  constructor
  · intro text L h
    have hmem : "Source and target languages cannot be the same" ∈ validate_input text L L := by
      unfold validate_input
      simp [h]
    exact List.ne_nil_of_mem hmem
  · intro text L hmem
    unfold validate_input at hmem
    rcases List.mem_append.mp hmem with h1 | h2
    · rcases List.mem_append.mp h1 with ha | hb
      · split at ha <;> simp_all
      · split at hb <;> simp_all
    · split at h2 <;> simp_all

theorem validate_input_same_language_witness :
    validate_input "hi" "en" "en" ≠ [] ∧
    "Source and target languages cannot be the same" ∉ validate_input "hi" "auto" "en" :=
  ⟨validate_input_same_language.1 "hi" "en" (by decide),
   validate_input_same_language.2 "hi" "en"⟩

/-- C8: for any input whose trimmed length is under 3 characters (the
empty string included), `detect_language` returns ("en", 0.3) for every
environment, in particular independently of the statistical detector. -/
theorem detect_language_short_default (env : Env) (text : String)
    (h : (pyStrip text).length < 3) :
    detect_language env text = ("en", mkRat 3 10) := by
  unfold detect_language
  rw [if_pos (Or.inr h)]

theorem detect_language_short_default_witness :
    (pyStrip "").length < 3 ∧ detect_language envNone "" = ("en", mkRat 3 10) ∧
    (pyStrip " ab ").length < 3 ∧ detect_language envNone " ab " = ("en", mkRat 3 10) :=
  ⟨by decide, detect_language_short_default envNone "" (by decide),
   by decide, detect_language_short_default envNone " ab " (by decide)⟩

/-- C10: `validate_input` called with a `None` text raises `TypeError`
(the unconditional `len(text)` check) rather than returning an error
list, while every string text produces a normal return with the computed
error list. -/
theorem validate_input_none_type_error :
    (∀ (src tgt : String),
      validate_input_py none src tgt =
        Except.error "TypeError: object of type NoneType has no len()") ∧
    (∀ (src tgt : String) (l : List String),
      validate_input_py none src tgt ≠ Except.ok l) ∧
    (∀ (text src tgt : String),
      validate_input_py (some text) src tgt = Except.ok (validate_input text src tgt)) := by
  refine ⟨fun _ _ => rfl, ?_, fun _ _ _ => rfl⟩
  intro src tgt l h
  simp [validate_input_py] at h

theorem validate_input_none_type_error_witness :
    validate_input_py none "en" "es" =
      Except.error "TypeError: object of type NoneType has no len()" ∧
    validate_input_py (some "hello") "en" "es" = Except.ok [] :=
  ⟨validate_input_none_type_error.1 "en" "es",
   (validate_input_none_type_error.2.2 "hello" "en" "es").trans
     (congrArg Except.ok (by decide))⟩

/-- C1: when the cache probe misses and the AI model, Google and MyMemory
answers are all unusable (absent or empty), `smart_translate` returns
`none` (never an empty-string result); and an empty-string answer from
the AI backend advances the chain, so Google's usable answer is returned
with Google's metadata. -/
theorem smart_translate_total_failure :
    (∀ (env : Env) (c : Cache) (text src tgt : String),
      get_cached_translation env c text (resolved_source env text src) tgt = none →
      truthy (translate_with_ai env text (resolved_source env text src) tgt) = false →
      truthy ((translate_with_google env text (resolved_source env text src) tgt).map
        Prod.fst) = false →
      truthy (translate_with_mymemory env text (resolved_source env text src) tgt) = false →
      (smart_translate env c text src tgt).1 = none) ∧
    (∀ (env : Env) (c : Cache) (text src tgt g glang : String),
      get_cached_translation env c text (resolved_source env text src) tgt = none →
      translate_with_ai env text (resolved_source env text src) tgt = some "" →
      translate_with_google env text (resolved_source env text src) tgt = some (g, glang) →
      g ≠ "" →
      (smart_translate env c text src tgt).1 = some
        { translation := g, source_lang := glang, method := "Google Translate",
          time := env.elapsed, confidence := mkRat 90 100, cached := false,
          offline := none, pivot := none, error := none }) := by
  constructor
  · intro env c text src tgt hcache hai hg hm
    simp [smart_translate, hcache, hai, hg, hm]
  · intro env c text src tgt g glang hcache hai hgoogle hne
    have hai' : truthy (translate_with_ai env text (resolved_source env text src) tgt) =
        false := by rw [hai]; rfl
    have hg' : truthy ((translate_with_google env text (resolved_source env text src)
        tgt).map Prod.fst) = true := by
      rw [hgoogle]; simpa using truthy_some_of_ne g hne
    have ht : truthy (some g) = true := truthy_some_of_ne g hne
    simp [smart_translate, google_result, hcache, hai', hg', hgoogle, ht]

theorem smart_translate_total_failure_witness :
    (smart_translate envNone emptyCache "hi" "en" "es").1 = none ∧
    (smart_translate envAIEmpty emptyCache "hi" "en" "es").1 = some
      { translation := "hola", source_lang := "en", method := "Google Translate",
        time := 0, confidence := mkRat 90 100, cached := false,
        offline := none, pivot := none, error := none } :=
  ⟨smart_translate_total_failure.1 envNone emptyCache "hi" "en" "es"
     (by decide) (by decide) (by decide) (by decide),
   smart_translate_total_failure.2 envAIEmpty emptyCache "hi" "en" "es" "hola" "en"
     (by decide) (by decide) (by decide) (by decide)⟩

/-- C6: for text strictly longer than the 400-character threshold (and a
loaded model and non-whitespace text), `translate_with_ai` returns the
per-chunk model outputs joined by single spaces, one model invocation per
chunk, where the chunks are the consecutive 400-character slices of the
text in original order: they concatenate back to the text, every chunk
has between 1 and 400 characters, and every chunk except the last has
exactly 400. -/
theorem translate_with_ai_chunks (env : Env) (text src tgt : String)
    (gen : String → String)
    (hg : env.gen (model_name src tgt) = some gen)
    (hs : pyStrip text ≠ "")
    (hl : text.length > 400) :
    translate_with_ai env text src tgt =
      some (pyJoin " " ((chunksAux 400 text.data.length text.data).map
        (fun l => gen (String.mk l)))) ∧
    (chunksAux 400 text.data.length text.data).flatten = text.data ∧
    (∀ l ∈ chunksAux 400 text.data.length text.data, 0 < l.length ∧ l.length ≤ 400) ∧
    (∀ l ∈ (chunksAux 400 text.data.length text.data).dropLast, l.length = 400) := by
  refine ⟨?_, chunksAux_flatten _ _ _ le_rfl (by decide),
    fun l hm => chunksAux_mem_length _ _ _ _ le_rfl (by decide) hm,
    fun l hm => chunksAux_dropLast_length _ _ _ _ le_rfl (by decide) hm⟩
  unfold translate_with_ai
  rw [if_neg hs, hg]
  simp [hl]

set_option maxRecDepth 8000 in
theorem translate_with_ai_chunks_witness :
    translate_with_ai envChunk (String.mk (List.replicate 401 'a')) "en" "es" =
      some "x x" :=
  ((translate_with_ai_chunks envChunk (String.mk (List.replicate 401 'a')) "en" "es"
      (fun _ => "x") rfl (by decide) (by decide)).1).trans (by decide)

/-- C4 is false as stated: the translation-cache key concatenates
`str(hash(text))`, not the text, so for the text "hello world" (whose
claimed concatenation "trans:en:es:hello world" is well under 200
characters) the key the code derives differs from that concatenation for
every possible value of Python's `hash` — in the short branch the final
component is a decimal integer rendering (digits and minus sign only,
never a space), and in the long branch the key is a 32-character hex
digest. -/
theorem trans_key_never_contains_text :
    (∀ h : Int, transKeyOfHash h "en" "es" ≠ "trans:en:es:hello world") ∧
    ("trans" ++ ":" ++ pyJoin ":" ["en", "es", "hello world"]).length ≤ 200 := by
  refine ⟨?_, by decide⟩
  intro h heq
  unfold transKeyOfHash make_key at heq
  by_cases hlen : (pyJoin ":" ["en", "es", intStr h]).length > 200
  · rw [if_pos hlen] at heq
    have hlen2 := congrArg String.length heq
    rw [String.length_append, String.length_append, md5Hex_length] at hlen2
    exact absurd hlen2 (by decide)
  · rw [if_neg hlen] at heq
    have hsp : (' ' : Char) ∈ ("trans:en:es:hello world" : String).data := by decide
    rw [← heq] at hsp
    rw [show pyJoin ":" ["en", "es", intStr h] =
      ("en" ++ ":") ++ (("es" ++ ":") ++ intStr h) from rfl] at hsp
    rw [String.data_append] at hsp
    rcases List.mem_append.mp hsp with h1 | h1
    · exact absurd h1 (by decide)
    · rw [String.data_append] at h1
      rcases List.mem_append.mp h1 with h2 | h2
      · exact absurd h2 (by decide)
      · rw [String.data_append] at h2
        rcases List.mem_append.mp h2 with h3 | h3
        · exact absurd h3 (by decide)
        · rcases intStr_mem h ' ' h3 with hd | hd
          · exact absurd hd (by decide)
          · exact absurd hd (by decide)

/-- C4 (amended): `_make_key` returns the prefix-plus-':'-joined
concatenation of its (stringified) parts whenever the joined string is at
most 200 characters, and only a longer joined string is replaced by its
MD5 hex digest; for the translation cache, the joined parts are the
source language, the target language and `str(hash(text))` — the Python
hash of the text stands in the key where the claim said the text itself
does. -/
theorem make_key_short_is_concatenation :
    (∀ (pre : String) (parts : List String),
      (pyJoin ":" parts).length ≤ 200 →
      make_key pre parts = pre ++ ":" ++ pyJoin ":" parts) ∧
    (∀ (h : Int) (src tgt : String),
      (pyJoin ":" [src, tgt, intStr h]).length ≤ 200 →
      transKeyOfHash h src tgt =
        "trans" ++ ":" ++ ((src ++ ":") ++ ((tgt ++ ":") ++ intStr h))) := by
  constructor
  · intro pre parts hlen
    unfold make_key
    rw [if_neg (by omega)]
  · intro h src tgt hlen
    unfold transKeyOfHash make_key
    rw [if_neg (by omega)]
    rfl

theorem make_key_short_is_concatenation_witness :
    make_key "m" ["a", "b"] = "m:a:b" ∧ transKeyOfHash 42 "en" "es" = "trans:en:es:42" :=
  ⟨(make_key_short_is_concatenation.1 "m" ["a", "b"] (by decide)).trans (by decide),
   (make_key_short_is_concatenation.2 42 "en" "es" (by decide)).trans (by decide)⟩

theorem smart_translate_miss_shape (env : Env) (c : Cache) (text src tgt : String)
    (hsrc : src ≠ "auto")
    (hc : get_cached_translation env c text src tgt = none) :
    smart_translate env c text src tgt = (none, c) ∨
    ∃ r, smart_translate env c text src tgt =
      (some r, cache_translation env c text src tgt r) := by
  by_cases hai : truthy (translate_with_ai env text src tgt) = true
  · exact Or.inr ⟨ai_result env (translate_with_ai env text src tgt) src,
      by simp [smart_translate, resolved_source, hsrc, hc, hai]⟩
  · by_cases hgo : truthy ((translate_with_google env text src tgt).map Prod.fst) = true
    · exact Or.inr ⟨google_result env (translate_with_google env text src tgt) src,
        by simp [smart_translate, resolved_source, hsrc, hc, hai, hgo]⟩
    · by_cases hmy : truthy (translate_with_mymemory env text src tgt) = true
      · exact Or.inr ⟨mymemory_result env (translate_with_mymemory env text src tgt) src,
          by simp [smart_translate, resolved_source, hsrc, hc, hai, hgo, hmy]⟩
      · exact Or.inl (by simp [smart_translate, resolved_source, hsrc, hc, hai, hgo, hmy])

/-- C2: with a non-"auto" source, when a first `smart_translate` dispatch
returns a successful result and the cache write path succeeded, a second
dispatch with identical arguments (same Python hash; its own wall-clock
reading) returns the same stored result with `cached = true` and `time`
recomputed to the second dispatch's elapsed time, all other fields
unchanged. -/
theorem smart_translate_idempotent (env1 env2 : Env) (c : Cache)
    (text src tgt : String) (r1 : TransResult)
    (hsrc : src ≠ "auto")
    (hhash : env2.pyHash = env1.pyHash)
    (hwrite : env1.writeOk = true)
    (h1 : (smart_translate env1 c text src tgt).1 = some r1) :
    (smart_translate env2 (smart_translate env1 c text src tgt).2 text src tgt).1 =
      some { r1 with time := env2.elapsed, cached := true } := by
  rcases hc : get_cached_translation env1 c text src tgt with _ | r0
  · rcases smart_translate_miss_shape env1 c text src tgt hsrc hc with hshape | ⟨r, hshape⟩
    · rw [hshape] at h1
      simp at h1
    · rw [hshape] at h1 ⊢
      obtain rfl : r = r1 := by simpa using h1
      have hc2 := get_cached_translation_write env1 env2 c text src tgt r hhash hwrite
      rw [smart_translate_cache_hit env2 _ text src tgt r hsrc hc2]
  · have hfirst := smart_translate_cache_hit env1 c text src tgt r0 hsrc hc
    rw [hfirst] at h1 ⊢
    obtain rfl : ({ r0 with time := env1.elapsed, cached := true } : TransResult) = r1 := by
      simpa using h1
    have hc2 : get_cached_translation env2 c text src tgt = some r0 := by
      unfold get_cached_translation at hc ⊢
      rw [hhash]
      exact hc
    rw [smart_translate_cache_hit env2 c text src tgt r0 hsrc hc2]

theorem smart_translate_idempotent_witness :
    (smart_translate envGoogleLater
        (smart_translate envGoogle emptyCache "hello" "en" "es").2 "hello" "en" "es").1 =
      some { translation := "hola", source_lang := "en", method := "Google Translate",
             time := 7, confidence := mkRat 90 100, cached := true,
             offline := none, pivot := none, error := none } :=
  (smart_translate_idempotent envGoogle envGoogleLater emptyCache "hello" "en" "es"
    { translation := "hola", source_lang := "en", method := "Google Translate",
      time := 0, confidence := mkRat 90 100, cached := false,
      offline := none, pivot := none, error := none }
    (by decide) rfl rfl (by decide)).trans (by decide)

/-- C3 is false as stated: a fresh (non-cached) result produced by the
local AI-model backend of `OfflineTranslator.smart_translate` carries
confidence 0.92, not the claimed 0.95 — exhibited on a concrete run with
the model answering "bonjour" for en→es. -/
theorem offline_ai_confidence_not_95 :
    (offline_smart_translate offEnvAI emptyCache "hello" "en" "es").1 =
      some (off_ai_result offEnvAI (some "bonjour") "en") ∧
    (off_ai_result offEnvAI (some "bonjour") "en").cached = false ∧
    (off_ai_result offEnvAI (some "bonjour") "en").method = "AI Model (Marian) (Offline)" ∧
    (off_ai_result offEnvAI (some "bonjour") "en").confidence = mkRat 92 100 ∧
    mkRat 92 100 ≠ mkRat 95 100 :=
  ⟨by decide, by decide, by decide, by decide, by decide⟩

/-- C3 (amended): fresh (non-cached) dispatcher results carry fixed
per-backend confidence constants, independent of the inputs: 0.95, 0.90
and 0.80 for the AI-model, Google and MyMemory branches of
`AITranslator.smart_translate`; and 0.92, 0.90 and 0.80 for the
local-model, Google and MyMemory branches of
`OfflineTranslator.smart_translate` — the offline local-model constant is
0.92, not 0.95. -/
theorem dispatcher_confidence_constants :
    (∀ (env : Env) (c : Cache) (text src tgt : String),
      src ≠ "auto" →
      get_cached_translation env c text src tgt = none →
      truthy (translate_with_ai env text src tgt) = true →
      ((smart_translate env c text src tgt).1.map TransResult.confidence) =
        some (mkRat 95 100)) ∧
    (∀ (env : Env) (c : Cache) (text src tgt : String),
      src ≠ "auto" →
      get_cached_translation env c text src tgt = none →
      truthy (translate_with_ai env text src tgt) = false →
      truthy ((translate_with_google env text src tgt).map Prod.fst) = true →
      ((smart_translate env c text src tgt).1.map TransResult.confidence) =
        some (mkRat 90 100)) ∧
    (∀ (env : Env) (c : Cache) (text src tgt : String),
      src ≠ "auto" →
      get_cached_translation env c text src tgt = none →
      truthy (translate_with_ai env text src tgt) = false →
      truthy ((translate_with_google env text src tgt).map Prod.fst) = false →
      truthy (translate_with_mymemory env text src tgt) = true →
      ((smart_translate env c text src tgt).1.map TransResult.confidence) =
        some (mkRat 80 100)) ∧
    (∀ (env : OffEnv) (c : Cache) (text src tgt : String),
      src ≠ "auto" →
      get_cached_translation env.toEnv c text src tgt = none →
      env.use_ai_models = true →
      is_offline_available src tgt = true →
      truthy (translate_with_ai env.toEnv text src tgt) = true →
      ((offline_smart_translate env c text src tgt).1.map TransResult.confidence) =
        some (mkRat 92 100)) ∧
    (∀ (env : OffEnv) (c : Cache) (text src tgt : String),
      src ≠ "auto" →
      get_cached_translation env.toEnv c text src tgt = none →
      (¬(env.use_ai_models = true ∧ is_offline_available src tgt = true ∧
         truthy (translate_with_ai env.toEnv text src tgt) = true)) →
      env.offline_mode = false →
      env.use_google_translate = true →
      truthy ((translate_with_google env.toEnv text src tgt).map Prod.fst) = true →
      ((offline_smart_translate env c text src tgt).1.map TransResult.confidence) =
        some (mkRat 90 100)) ∧
    (∀ (env : OffEnv) (c : Cache) (text src tgt : String),
      src ≠ "auto" →
      get_cached_translation env.toEnv c text src tgt = none →
      (¬(env.use_ai_models = true ∧ is_offline_available src tgt = true ∧
         truthy (translate_with_ai env.toEnv text src tgt) = true)) →
      env.offline_mode = false →
      env.use_google_translate = true →
      truthy ((translate_with_google env.toEnv text src tgt).map Prod.fst) = false →
      env.use_mymemory = true →
      truthy (translate_with_mymemory env.toEnv text src tgt) = true →
      ((offline_smart_translate env c text src tgt).1.map TransResult.confidence) =
        some (mkRat 80 100)) := by
  refine ⟨?_, ?_, ?_, ?_, ?_, ?_⟩
  · intro env c text src tgt hsrc hc hai
    simp [smart_translate, resolved_source, hsrc, hc, hai, ai_result]
  · intro env c text src tgt hsrc hc hai hgo
    simp [smart_translate, resolved_source, hsrc, hc, hai, hgo, google_result]
  · intro env c text src tgt hsrc hc hai hgo hmy
    simp [smart_translate, resolved_source, hsrc, hc, hai, hgo, hmy, mymemory_result]
  · intro env c text src tgt hsrc hc h1 h2 h3
    simp [offline_smart_translate, resolved_source, hsrc, hc, h1, h2, h3, off_ai_result]
  · intro env c text src tgt hsrc hc hnd hoff hug hgt
    simp [offline_smart_translate, resolved_source, hsrc, hc, hnd, hoff, hug, hgt,
      off_google_result]
  · intro env c text src tgt hsrc hc hnd hoff hug hgf hum hmt
    simp [offline_smart_translate, resolved_source, hsrc, hc, hnd, hoff, hug, hgf, hum,
      hmt, off_mymemory_result]

theorem dispatcher_confidence_constants_witness :
    ((smart_translate envAI emptyCache "hello" "en" "es").1.map TransResult.confidence) =
      some (mkRat 95 100) ∧
    ((smart_translate envGoogle emptyCache "hello" "en" "es").1.map TransResult.confidence) =
      some (mkRat 90 100) ∧
    ((smart_translate envMyMemory emptyCache "hello" "en" "es").1.map
      TransResult.confidence) = some (mkRat 80 100) ∧
    ((offline_smart_translate offEnvAI emptyCache "hello" "en" "es").1.map
      TransResult.confidence) = some (mkRat 92 100) ∧
    ((offline_smart_translate offEnvOnlineGoogle emptyCache "hello" "en" "es").1.map
      TransResult.confidence) = some (mkRat 90 100) ∧
    ((offline_smart_translate offEnvOnlineMyMemory emptyCache "hello" "en" "es").1.map
      TransResult.confidence) = some (mkRat 80 100) :=
  ⟨dispatcher_confidence_constants.1 envAI emptyCache "hello" "en" "es"
     (by decide) (by decide) (by decide),
   dispatcher_confidence_constants.2.1 envGoogle emptyCache "hello" "en" "es"
     (by decide) (by decide) (by decide) (by decide),
   dispatcher_confidence_constants.2.2.1 envMyMemory emptyCache "hello" "en" "es"
     (by decide) (by decide) (by decide) (by decide) (by decide),
   dispatcher_confidence_constants.2.2.2.1 offEnvAI emptyCache "hello" "en" "es"
     (by decide) (by decide) (by decide) (by decide) (by decide),
   dispatcher_confidence_constants.2.2.2.2.1 offEnvOnlineGoogle emptyCache "hello" "en" "es"
     (by decide) (by decide) (by decide) (by decide) (by decide) (by decide),
   dispatcher_confidence_constants.2.2.2.2.2 offEnvOnlineMyMemory emptyCache "hello" "en" "es"
     (by decide) (by decide) (by decide) (by decide) (by decide) (by decide) (by decide)
     (by decide)⟩

/-- C5: in forced-offline mode, for a source/target pair absent from the
local-model table (source and target both different from "en") with both
source→en and en→target present and both local-model calls returning
usable text, the dispatcher returns the pivot result — confidence 0.85,
pivot marker true, translation equal to the en→target model output on
the intermediate English text; and when offline mode is not forced, no
fresh (non-cached) result ever carries the pivot marker. -/
theorem offline_pivot_path :
    (∀ (env : OffEnv) (c : Cache) (text src tgt e f : String),
      env.offline_mode = true →
      src ≠ "auto" →
      is_offline_available src tgt = false →
      src ≠ "en" → tgt ≠ "en" →
      is_offline_available src "en" = true →
      is_offline_available "en" tgt = true →
      get_cached_translation env.toEnv c text src tgt = none →
      translate_with_ai env.toEnv text src "en" = some e → e ≠ "" →
      translate_with_ai env.toEnv e "en" tgt = some f → f ≠ "" →
      (offline_smart_translate env c text src tgt).1 =
        some (pivot_result env (some f) src)) ∧
    (∀ (env : OffEnv) (f src : String),
      (pivot_result env (some f) src).confidence = mkRat 85 100 ∧
      (pivot_result env (some f) src).pivot = some true ∧
      (pivot_result env (some f) src).translation = f) ∧
    (∀ (env : OffEnv) (c : Cache) (text src tgt : String) (r : TransResult),
      env.offline_mode = false →
      (offline_smart_translate env c text src tgt).1 = some r →
      r.cached = false →
      r.pivot = none) := by
  refine ⟨?_, fun env f src => ⟨rfl, rfl, rfl⟩, ?_⟩
  · intro env c text src tgt e f hoff hsrc hnav hsen hten hsen2 hten2 hc he hene hf hfne
    have hte : truthy (some e) = true := truthy_some_of_ne e hene
    have htf : truthy (some f) = true := truthy_some_of_ne f hfne
    simp [offline_smart_translate, translate_via_english_pivot, resolved_source, hsrc,
      hc, hnav, hoff, hsen, hten, hsen2, hten2, he, hf, hte, htf]
  · intro env c text src tgt r hoff h1 hcached
    simp only [offline_smart_translate] at h1
    rcases hc : get_cached_translation env.toEnv c text
        (resolved_source env.toEnv text src) tgt with _ | r0
    · simp only [hc] at h1
      repeat' split at h1
      all_goals first
        | exact Option.noConfusion h1
        | (obtain rfl := Option.some.inj h1; rfl)
        | simp_all
    · simp only [hc] at h1
      obtain rfl := Option.some.inj h1
      simp at hcached

theorem offline_pivot_path_witness :
    (offline_smart_translate offEnvPivot emptyCache "hola" "es" "de").1 =
      some (pivot_result offEnvPivot (some "holaXX") "es") ∧
    (pivot_result offEnvPivot (some "holaXX") "es").confidence = mkRat 85 100 :=
  ⟨offline_pivot_path.1 offEnvPivot emptyCache "hola" "es" "de" "holaX" "holaXX"
     rfl (by decide) (by decide) (by decide) (by decide) (by decide) (by decide)
     (by decide) (by decide) (by decide) (by decide) (by decide),
   (offline_pivot_path.2.1 offEnvPivot "holaXX" "es").1⟩

/-- C9: with offline mode forced, `OfflineTranslator.smart_translate`
always returns a result (never `none`); and when additionally the cache
misses, the direct local-model branch does not fire and the English
pivot yields nothing, the result is the offline fallback: the input text
echoed unchanged, method "Offline Fallback", confidence 0.1, offline
flag true, and a non-empty error message. -/
theorem offline_never_none_fallback :
    (∀ (env : OffEnv) (c : Cache) (text src tgt : String),
      env.offline_mode = true →
      ((offline_smart_translate env c text src tgt).1).isSome = true) ∧
    (∀ (env : OffEnv) (c : Cache) (text src tgt : String),
      env.offline_mode = true →
      src ≠ "auto" →
      get_cached_translation env.toEnv c text src tgt = none →
      (¬(env.use_ai_models = true ∧ is_offline_available src tgt = true ∧
         truthy (translate_with_ai env.toEnv text src tgt) = true)) →
      (src ≠ "en" → tgt ≠ "en" →
        (translate_via_english_pivot env c text src tgt).1 = none) →
      (offline_smart_translate env c text src tgt).1 =
        some (offline_fallback_result env text src tgt)) ∧
    (∀ (env : OffEnv) (text src tgt : String),
      (offline_fallback_result env text src tgt).translation = text ∧
      (offline_fallback_result env text src tgt).method = "Offline Fallback" ∧
      (offline_fallback_result env text src tgt).confidence = mkRat 1 10 ∧
      (offline_fallback_result env text src tgt).offline = some true ∧
      (offline_fallback_result env text src tgt).error ≠ none ∧
      (offline_fallback_result env text src tgt).error ≠ some "") := by
  refine ⟨?_, ?_, ?_⟩
  · intro env c text src tgt hoff
    simp only [offline_smart_translate]
    rcases hc : get_cached_translation env.toEnv c text
        (resolved_source env.toEnv text src) tgt with _ | r0
    · simp only [hc]
      repeat' split
      all_goals simp_all
    · simp [hc]
  · intro env c text src tgt hoff hsrc hc hnd hpiv
    have hr : resolved_source env.toEnv text src = src := by
      simp [resolved_source, hsrc]
    simp only [offline_smart_translate, hr, hc]
    rw [if_neg hnd, if_pos hoff]
    by_cases hst : src ≠ "en" ∧ tgt ≠ "en"
    · rw [if_pos hst]
      rcases hpair : translate_via_english_pivot env c text src tgt with ⟨p, c2⟩
      have hp : p = none := by
        have h2 := hpiv hst.1 hst.2
        rw [hpair] at h2
        exact h2
      subst hp
      simp [hpair]
    · rw [if_neg hst]
  · intro env text src tgt
    refine ⟨rfl, rfl, rfl, rfl, fun h => Option.noConfusion h, ?_⟩
    intro h
    have hs := Option.some.inj h
    have hlen := congrArg String.length hs
    rw [String.length_append, String.length_append, String.length_append,
      show ("No offline model available for " : String).length = 31 from rfl,
      show (" \u00e2\u2020\u2019 " : String).length = 5 from rfl,
      show ("" : String).length = 0 from rfl] at hlen
    omega

theorem offline_never_none_fallback_witness :
    ((offline_smart_translate offEnvNone emptyCache "hi" "fr" "ko").1).isSome = true ∧
    (offline_smart_translate offEnvNone emptyCache "hi" "fr" "ko").1 =
      some (offline_fallback_result offEnvNone "hi" "fr" "ko") :=
  ⟨offline_never_none_fallback.1 offEnvNone emptyCache "hi" "fr" "ko" rfl,
   offline_never_none_fallback.2.1 offEnvNone emptyCache "hi" "fr" "ko" rfl (by decide)
     (by decide) (by decide) (fun _ _ => by decide)⟩
